import Mathlib

/-!
Shallow embedding of `src/services/referral_verification.py` (function
`verify_referral`) together with the pieces of Python runtime semantics the
function relies on: `str.__format__` (the standard format-spec mini-language,
as parsed by CPython), f-string evaluation, `json.dumps(..., indent=2)` and
`json.loads`.

Modelling conventions:
* Python values are `PyVal`; numbers (both `int` and `float`) are modelled as
  exact rationals, dictionaries as insertion-ordered association lists with
  string keys (Python dict semantics: update-in-place keeps position,
  otherwise append).
* A raised Python exception is `PyErr` (class name and `str(e)` message);
  fallible steps return `Except PyErr`.
* The single `openai.chat.completions.create` call is an oracle parameter
  `net : Except PyErr String` giving either the response message content or
  the error the call would raise; `time.time()` is the parameter `now`.
* `verifyReferral` additionally reports how many outbound requests the run
  performed and the final state of the `user_data` dictionary (the source
  only ever reads it through `.get`).
-/

namespace ReferralVerification

/-- Python runtime values, restricted to the JSON-serialisable shapes this
program handles. `num` covers both Python `int` and `float`, modelled as an
exact rational. -/
inductive PyVal where
  | null
  | bool (b : Bool)
  | num (q : ℚ)
  | str (s : String)
  | list (xs : List PyVal)
  | dict (entries : List (String × PyVal))

/-- A Python dictionary with string keys: an insertion-ordered association
list. -/
abbrev PyDict := List (String × PyVal)

/-- A raised Python exception: its class name and `str(e)`. -/
structure PyErr where
  cls : String
  msg : String

/-- Python `d.get(k, default)`. -/
def dictGet (d : PyDict) (k : String) (dflt : PyVal) : PyVal :=
  match d.find? (fun p => p.1 == k) with
  | some p => p.2
  | none => dflt

/-- Python `d[k] = v`: overwrite in place when the key is present (keeping its
position), otherwise append at the end. -/
def dictSet (d : PyDict) (k : String) (v : PyVal) : PyDict :=
  if d.any (fun p => p.1 == k) then
    d.map (fun p => if p.1 == k then (k, v) else p)
  else d ++ [(k, v)]

/-- Whether an `Except` result is a successful return. -/
def exceptIsOk : Except PyErr PyDict → Bool
  | Except.ok _ => true
  | Except.error _ => false

/-- The error message carried by an `Except` result (empty on success). -/
def errMsgOf : Except PyErr PyDict → String
  | Except.error e => e.msg
  | Except.ok _ => ""

/- ## The standard format-spec mini-language (`str.__format__`) -/

/-- Alignment characters of the format-spec mini-language. -/
def isAlignChar (c : Char) : Bool := c == '<' || c == '>' || c == '=' || c == '^'

/-- Sign characters of the format-spec mini-language (note that a space is a
sign character). -/
def isSignChar (c : Char) : Bool := c == '+' || c == '-' || c == ' '

/-- Value of a decimal digit character, if it is one. -/
def digitVal (c : Char) : Option Nat :=
  let n := c.toNat
  if Nat.ble 48 n && Nat.ble n 57 then some (n - 48) else none

/-- Consume a run of decimal digits, returning the accumulated value, the
number of digits consumed, and the rest of the input. -/
def takeDigitsAux (acc cnt : Nat) : List Char → Nat × Nat × List Char
  | [] => (acc, cnt, [])
  | c :: rest =>
    match digitVal c with
    | some d => takeDigitsAux (acc * 10 + d) (cnt + 1) rest
    | none => (acc, cnt, c :: rest)

/-- A parsed standard format specifier, mirroring CPython's
`parse_internal_render_format_spec`. -/
structure FormatSpec where
  fill : Char
  align : Option Char
  sign : Option Char
  alternate : Bool
  width : Option Nat
  thousands : Option Char
  precision : Option Nat
  ty : Option Char

/-- Final step of format-spec parsing: at most one (type) character may
remain; two or more remaining characters make the specifier invalid. -/
def finishSpec (fill : Char) (align sign : Option Char) (alt : Bool)
    (width : Option Nat) (th : Option Char) (prec : Option Nat)
    (rest : List Char) : Except PyErr FormatSpec :=
  match rest with
  | [] => Except.ok ⟨fill, align, sign, alt, width, th, prec, none⟩
  | [t] => Except.ok ⟨fill, align, sign, alt, width, th, prec, some t⟩
  | _ => Except.error (PyErr.mk "ValueError" "Invalid format specifier")

/-- Parse a standard format specifier in CPython field order:
`[[fill]align][sign][#][0][width][,|_][.precision][type]`. The message text
of the invalid-specifier error is kept version-independent (recent CPython
appends the offending spec to it). -/
def parseFormatSpec (spec : String) : Except PyErr FormatSpec :=
  let cs := spec.data
  let fa : Char × Option Char × Bool × List Char :=
    match cs with
    | a :: b :: rest =>
      if isAlignChar b then (a, some b, true, rest)
      else if isAlignChar a then (' ', some a, false, b :: rest)
      else (' ', none, false, a :: b :: rest)
    | [a] => if isAlignChar a then (' ', some a, false, []) else (' ', none, false, [a])
    | [] => (' ', none, false, [])
  match fa with
  | (fill, align, fillSpec, cs1) =>
    let sg : Option Char × List Char :=
      match cs1 with
      | c :: rest => if isSignChar c then (some c, rest) else (none, c :: rest)
      | [] => (none, [])
    match sg with
    | (sign, cs2) =>
      let alt : Bool × List Char :=
        match cs2 with
        | c :: rest => if c == '#' then (true, rest) else (false, c :: rest)
        | [] => (false, [])
      match alt with
      | (alternate, cs3) =>
        let zf : Char × Option Char × List Char :=
          match cs3 with
          | c :: rest =>
            if c == '0' && !fillSpec then
              ('0', (match align with | some al => some al | none => some '='), rest)
            else (fill, align, c :: rest)
          | [] => (fill, align, [])
        match zf with
        | (fill2, align2, cs4) =>
          let wd : Option Nat × List Char :=
            match cs4 with
            | c :: rest =>
              if (digitVal c).isSome then
                match takeDigitsAux 0 0 (c :: rest) with
                | (w, _, r) => (some w, r)
              else (none, c :: rest)
            | [] => (none, [])
          match wd with
          | (width, cs5) =>
            let th : Option Char × List Char :=
              match cs5 with
              | c :: rest => if c == ',' || c == '_' then (some c, rest) else (none, c :: rest)
              | [] => (none, [])
            match th with
            | (thousands, cs6) =>
              match cs6 with
              | '.' :: r =>
                match r with
                | c :: _ =>
                  if (digitVal c).isSome then
                    match takeDigitsAux 0 0 r with
                    | (p, _, r2) =>
                      finishSpec fill2 align2 sign alternate width thousands (some p) r2
                  else Except.error (PyErr.mk "ValueError" "Format specifier missing precision")
                | [] => Except.error (PyErr.mk "ValueError" "Format specifier missing precision")
              | rest => finishSpec fill2 align2 sign alternate width thousands none rest

/-- Pad a string to the requested width with the given fill and alignment
(default alignment for strings is left). -/
def padStr (t : String) (w : Nat) (fill : Char) (al : Char) : String :=
  let n := t.length
  if Nat.ble w n then t
  else
    let pad := w - n
    if al == '>' then String.mk (List.replicate pad fill) ++ t
    else if al == '^' then
      String.mk (List.replicate (pad / 2) fill) ++ t ++
        String.mk (List.replicate (pad - pad / 2) fill)
    else t ++ String.mk (List.replicate pad fill)

/-- Apply a parsed format spec to a string value, with CPython's checks for
options that are not allowed for strings. -/
def formatStrWith (f : FormatSpec) (s : String) : Except PyErr String :=
  if f.sign.isSome then
    Except.error (PyErr.mk "ValueError" "Sign not allowed in string format specifier")
  else if f.alternate then
    Except.error (PyErr.mk "ValueError" "Alternate form not allowed in string format specifier")
  else if f.align == some '=' then
    Except.error (PyErr.mk "ValueError" "= alignment not allowed in string format specifier")
  else if f.thousands.isSome then
    Except.error (PyErr.mk "ValueError" "Cannot specify a grouping option with s")
  else
    let t := match f.precision with
      | some p => String.mk (s.data.take p)
      | none => s
    let w := match f.width with
      | some w => w
      | none => 0
    let al := match f.align with
      | some a => a
      | none => '<'
    Except.ok (padStr t w f.fill al)

/-- Python `format(s, spec)` for a string value `s`: parse the spec, check
the type code, and render. -/
def pyFormatStr (s : String) (spec : String) : Except PyErr String :=
  match parseFormatSpec spec with
  | Except.error e => Except.error e
  | Except.ok f =>
    match f.ty with
    | some t =>
      if t == 's' then formatStrWith f s
      else Except.error (PyErr.mk "ValueError" "Unknown format code for object of type str")
    | none => formatStrWith f s

/- ## `json.dumps(v, indent=2)` -/

/-- Lower-case hexadecimal digit character. -/
def hexDigitChar (n : Nat) : Char :=
  if Nat.ble n 9 then Char.ofNat (48 + n) else Char.ofNat (87 + n)

/-- Four-digit lower-case hexadecimal rendering, as used in `\uXXXX`
escapes. -/
def hex4 (n : Nat) : String :=
  String.mk [hexDigitChar (n / 4096 % 16), hexDigitChar (n / 256 % 16),
    hexDigitChar (n / 16 % 16), hexDigitChar (n % 16)]

/-- Escape one character the way `json.dumps` does with its default
`ensure_ascii=True`: named escapes for the usual control characters, `\uXXXX`
(with surrogate pairs beyond the BMP) for other non-printable or non-ASCII
characters. -/
def escapeChar (c : Char) : String :=
  if c == '"' then "\\\""
  else if c == '\\' then "\\\\"
  else if c == '\n' then "\\n"
  else if c == '\r' then "\\r"
  else if c == '\t' then "\\t"
  else if c == '\x08' then "\\b"
  else if c == '\x0c' then "\\f"
  else if Nat.ble 32 c.toNat && Nat.ble c.toNat 126 then String.singleton c
  else if Nat.ble c.toNat 65535 then "\\u" ++ hex4 c.toNat
  else
    let n := c.toNat - 65536
    "\\u" ++ hex4 (55296 + n / 1024) ++ "\\u" ++ hex4 (56320 + n % 1024)

/-- JSON string-body escaping. -/
def jsonEscape (s : String) : String := String.join (s.data.map escapeChar)

/-- Powers of ten. -/
def pow10 (k : Nat) : Nat := 10 ^ k

/-- Smallest positive exponent `k ≤ 40` with `den ∣ 10 ^ k`, when one
exists: such denominators print as finite decimals. -/
def decExpOf (den : Nat) : Option Nat :=
  (List.range 41).find? (fun k => Nat.ble 1 k && (pow10 k % den == 0))

/-- Left-pad a digit string with zeros to the given length. -/
def padLeftZeros (s : String) (k : Nat) : String :=
  String.mk (List.replicate (k - s.length) '0') ++ s

/-- Decimal rendering of a number value. Python prints `int`s in decimal and
`float`s with `repr`; here numbers are exact rationals, so integers print as
integers and other values with a power-of-ten denominator print as exact
finite decimals (`0.9`, `12.5`), which agrees with Python on the short
decimals this program deals in. -/
def numRepr (q : ℚ) : String :=
  if q.den == 1 then toString q.num
  else
    match decExpOf q.den with
    | some k =>
      let mag := (q.num * Int.ofNat (pow10 k / q.den)).natAbs
      (if q.num < 0 then "-" else "") ++ toString (mag / pow10 k) ++ "." ++
        padLeftZeros (toString (mag % pow10 k)) k
    | none => toString q.num ++ "/" ++ toString q.den

/-- A run of spaces, used for indentation. -/
def spacesN (n : Nat) : String := String.mk (List.replicate n ' ')

mutual

/-- Python `json.dumps(v, indent=2)` at current indentation `ind`: containers
put every element on its own line, indented two further spaces, with `": "`
between keys and values; empty containers collapse. -/
def jsonDumps (ind : Nat) : PyVal → String
  | PyVal.null => "null"
  | PyVal.bool true => "true"
  | PyVal.bool false => "false"
  | PyVal.num q => numRepr q
  | PyVal.str s => "\"" ++ jsonEscape s ++ "\""
  | PyVal.list [] => "[]"
  | PyVal.list (x :: xs) =>
      "[\n" ++ dumpsItems (ind + 2) x xs ++ "\n" ++ spacesN ind ++ "]"
  | PyVal.dict [] => "\x7b\x7d"
  | PyVal.dict ((k, v) :: es) =>
      "\x7b\n" ++ dumpsEntries (ind + 2) k v es ++ "\n" ++ spacesN ind ++ "\x7d"
termination_by v => sizeOf v

/-- Render the comma-and-newline separated items of a non-empty list. -/
def dumpsItems (ind : Nat) (x : PyVal) : List PyVal → String
  | [] => spacesN ind ++ jsonDumps ind x
  | y :: ys => spacesN ind ++ jsonDumps ind x ++ ",\n" ++ dumpsItems ind y ys
termination_by l => sizeOf x + sizeOf l

/-- Render the comma-and-newline separated entries of a non-empty object. -/
def dumpsEntries (ind : Nat) (k : String) (v : PyVal) :
    List (String × PyVal) → String
  | [] => spacesN ind ++ "\"" ++ jsonEscape k ++ "\": " ++ jsonDumps ind v
  | (k2, v2) :: es =>
      spacesN ind ++ "\"" ++ jsonEscape k ++ "\": " ++ jsonDumps ind v ++ ",\n" ++
        dumpsEntries ind k2 v2 es
termination_by l => sizeOf v + sizeOf l

end

/- ## `json.loads` -/

/-- JSON whitespace. -/
def isJsonWs (c : Char) : Bool := c == ' ' || c == '\t' || c == '\n' || c == '\r'

/-- Skip JSON whitespace. -/
def skipWs : List Char → List Char
  | [] => []
  | c :: rest => if isJsonWs c then skipWs rest else c :: rest

/-- Value of a hexadecimal digit character, if it is one. -/
def hexVal (c : Char) : Option Nat :=
  let n := c.toNat
  if Nat.ble 48 n && Nat.ble n 57 then some (n - 48)
  else if Nat.ble 97 n && Nat.ble n 102 then some (n - 87)
  else if Nat.ble 65 n && Nat.ble n 70 then some (n - 55)
  else none

/-- Parse the body of a JSON string, the opening quote already consumed;
returns the decoded text and the input after the closing quote. The fuel is
an upper bound on the characters consumed, so a fuel of the input length
never runs out. `\uXXXX` escapes decode to the code point directly (surrogate
pairing is not re-joined, a simplification of no consequence here). -/
def parseJString (fuel : Nat) (l : List Char) : Except PyErr (String × List Char) :=
  match fuel with
  | 0 => Except.error (PyErr.mk "JSONDecodeError" "Unterminated string")
  | f + 1 =>
    match l with
    | [] => Except.error (PyErr.mk "JSONDecodeError" "Unterminated string")
    | c :: rest =>
      if c == '"' then Except.ok ("", rest)
      else if c == '\\' then
        match rest with
        | [] => Except.error (PyErr.mk "JSONDecodeError" "Unterminated string")
        | e :: rest2 =>
          let step : Except PyErr (Char × List Char) :=
            if e == '"' then Except.ok ('"', rest2)
            else if e == '\\' then Except.ok ('\\', rest2)
            else if e == '/' then Except.ok ('/', rest2)
            else if e == 'b' then Except.ok ('\x08', rest2)
            else if e == 'f' then Except.ok ('\x0c', rest2)
            else if e == 'n' then Except.ok ('\n', rest2)
            else if e == 'r' then Except.ok ('\r', rest2)
            else if e == 't' then Except.ok ('\t', rest2)
            else if e == 'u' then
              match rest2 with
              | a :: b :: c2 :: d :: rest3 =>
                match hexVal a, hexVal b, hexVal c2, hexVal d with
                | some ha, some hb, some hc, some hd =>
                  Except.ok (Char.ofNat (((ha * 16 + hb) * 16 + hc) * 16 + hd), rest3)
                | _, _, _, _ =>
                  Except.error (PyErr.mk "JSONDecodeError" "Invalid uXXXX escape")
              | _ => Except.error (PyErr.mk "JSONDecodeError" "Invalid uXXXX escape")
            else Except.error (PyErr.mk "JSONDecodeError" "Invalid escape")
          match step with
          | Except.error err => Except.error err
          | Except.ok (ch, rest3) =>
            match parseJString f rest3 with
            | Except.error err => Except.error err
            | Except.ok (s, r) => Except.ok (String.singleton ch ++ s, r)
      else if Nat.ble c.toNat 31 then
        Except.error (PyErr.mk "JSONDecodeError" "Invalid control character")
      else
        match parseJString f rest with
        | Except.error err => Except.error err
        | Except.ok (s, r) => Except.ok (String.singleton c ++ s, r)

/-- Parse the exponent suffix of a JSON number (the `e`/`E` already
consumed), scaling the mantissa. -/
def parseExp (q : ℚ) (r : List Char) : Except PyErr (ℚ × List Char) :=
  let sr : Bool × List Char :=
    match r with
    | '+' :: rr => (false, rr)
    | '-' :: rr => (true, rr)
    | _ => (false, r)
  match sr with
  | (negE, r2) =>
    match takeDigitsAux 0 0 r2 with
    | (ev, ecnt, r3) =>
      if ecnt == 0 then Except.error (PyErr.mk "JSONDecodeError" "Expecting exponent digits")
      else
        let m : ℚ := (pow10 ev : ℚ)
        Except.ok (if negE then q / m else q * m, r3)

/-- Parse a JSON number (grammar `-? (0 | [1-9][0-9]*) (. [0-9]+)?
([eE][+-]?[0-9]+)?`) into an exact rational. A lone leading zero consumes
only itself, as in Python's scanner regex. -/
def parseNumber (l : List Char) : Except PyErr (ℚ × List Char) :=
  let sr : Bool × List Char :=
    match l with
    | '-' :: r => (true, r)
    | _ => (false, l)
  match sr with
  | (neg, l1) =>
    match l1 with
    | [] => Except.error (PyErr.mk "JSONDecodeError" "Expecting value")
    | c0 :: rest0 =>
      if (digitVal c0).isNone then Except.error (PyErr.mk "JSONDecodeError" "Expecting value")
      else
        let ip : Nat × List Char :=
          if c0 == '0' then (0, rest0)
          else
            match takeDigitsAux 0 0 (c0 :: rest0) with
            | (iv, _, l2) => (iv, l2)
        match ip with
        | (iv, l2) =>
          let fp : Option (Nat × Nat × List Char) :=
            match l2 with
            | '.' :: r =>
              match takeDigitsAux 0 0 r with
              | (fv, fcnt, l3) => if fcnt == 0 then none else some (fv, fcnt, l3)
            | _ => some (0, 0, l2)
          match fp with
          | none => Except.error (PyErr.mk "JSONDecodeError" "Expecting digits after decimal point")
          | some (fv, fcnt, l3) =>
            let base : ℚ := (iv : ℚ) + (fv : ℚ) / (pow10 fcnt : ℚ)
            let signed : ℚ := if neg then -base else base
            match l3 with
            | 'e' :: r => parseExp signed r
            | 'E' :: r => parseExp signed r
            | _ => Except.ok (signed, l3)

/-- Build a Python dict from parsed object entries in order; a duplicate key
overwrites the earlier value in place, as in `json.loads`. -/
def dictFromEntries (es : List (String × PyVal)) : PyDict :=
  es.foldl (fun d kv => dictSet d kv.1 kv.2) []

mutual

/-- Parse one JSON value, fuelled; the fuel bounds the bracket-nesting depth
and every nesting step consumes input, so a fuel of the input length plus one
never runs out. -/
def parseValue : Nat → List Char → Except PyErr (PyVal × List Char)
  | 0, _ => Except.error (PyErr.mk "JSONDecodeError" "Expecting value")
  | f + 1, l =>
    match skipWs l with
    | [] => Except.error (PyErr.mk "JSONDecodeError" "Expecting value")
    | c :: rest =>
      if c == '"' then
        match parseJString (f + 1) rest with
        | Except.error e => Except.error e
        | Except.ok (s, r) => Except.ok (PyVal.str s, r)
      else if c == '\x7b' then
        match skipWs rest with
        | '\x7d' :: r => Except.ok (PyVal.dict [], r)
        | r2 =>
          match parseMembers f r2 with
          | Except.error e => Except.error e
          | Except.ok (es, r) => Except.ok (PyVal.dict (dictFromEntries es), r)
      else if c == '[' then
        match skipWs rest with
        | ']' :: r => Except.ok (PyVal.list [], r)
        | r2 =>
          match parseItems f r2 with
          | Except.error e => Except.error e
          | Except.ok (xs, r) => Except.ok (PyVal.list xs, r)
      else if c == 't' then
        match rest with
        | 'r' :: 'u' :: 'e' :: r => Except.ok (PyVal.bool true, r)
        | _ => Except.error (PyErr.mk "JSONDecodeError" "Expecting value")
      else if c == 'f' then
        match rest with
        | 'a' :: 'l' :: 's' :: 'e' :: r => Except.ok (PyVal.bool false, r)
        | _ => Except.error (PyErr.mk "JSONDecodeError" "Expecting value")
      else if c == 'n' then
        match rest with
        | 'u' :: 'l' :: 'l' :: r => Except.ok (PyVal.null, r)
        | _ => Except.error (PyErr.mk "JSONDecodeError" "Expecting value")
      else if c == '-' || (digitVal c).isSome then
        match parseNumber (c :: rest) with
        | Except.error e => Except.error e
        | Except.ok (q, r) => Except.ok (PyVal.num q, r)
      else Except.error (PyErr.mk "JSONDecodeError" "Expecting value")

/-- Parse the members of a JSON object, positioned after `\x7b` or a comma,
up to and including the closing `\x7d`. -/
def parseMembers : Nat → List Char → Except PyErr (List (String × PyVal) × List Char)
  | 0, _ => Except.error (PyErr.mk "JSONDecodeError" "Expecting property name")
  | f + 1, l =>
    match skipWs l with
    | '"' :: r0 =>
      match parseJString (f + 1) r0 with
      | Except.error e => Except.error e
      | Except.ok (k, r1) =>
        match skipWs r1 with
        | ':' :: r2 =>
          match parseValue f r2 with
          | Except.error e => Except.error e
          | Except.ok (v, r3) =>
            match skipWs r3 with
            | ',' :: r4 =>
              match parseMembers f r4 with
              | Except.error e => Except.error e
              | Except.ok (es, r5) => Except.ok ((k, v) :: es, r5)
            | '\x7d' :: r4 => Except.ok ([(k, v)], r4)
            | _ => Except.error (PyErr.mk "JSONDecodeError" "Expecting comma delimiter")
        | _ => Except.error (PyErr.mk "JSONDecodeError" "Expecting colon delimiter")
    | _ => Except.error (PyErr.mk "JSONDecodeError" "Expecting property name in double quotes")

/-- Parse the items of a JSON array, positioned after `[` or a comma, up to
and including the closing `]`. -/
def parseItems : Nat → List Char → Except PyErr (List PyVal × List Char)
  | 0, _ => Except.error (PyErr.mk "JSONDecodeError" "Expecting value")
  | f + 1, l =>
    match parseValue f l with
    | Except.error e => Except.error e
    | Except.ok (v, r) =>
      match skipWs r with
      | ',' :: r2 =>
        match parseItems f r2 with
        | Except.error e => Except.error e
        | Except.ok (xs, r3) => Except.ok (v :: xs, r3)
      | ']' :: r2 => Except.ok ([v], r2)
      | _ => Except.error (PyErr.mk "JSONDecodeError" "Expecting comma delimiter")

end

/-- Python `json.loads`: parse one value and require only whitespace after
it. -/
def jsonLoads (s : String) : Except PyErr PyVal :=
  match parseValue (s.length + 1) s.data with
  | Except.error e => Except.error e
  | Except.ok (v, rest) =>
    match skipWs rest with
    | [] => Except.ok v
    | _ => Except.error (PyErr.mk "JSONDecodeError" "Extra data")

/- ## `verify_referral` (src/services/referral_verification.py) -/

/-- The format specifier Python extracts from the unescaped brace block of
the prompt f-string (lines 37-41 of the source): inside the f-string, the
block starting at the lone brace is a replacement field whose expression part
is the string literal `"verified"` (the text up to the first top-level
colon), and whose format-spec part is everything from that colon to the first
closing brace, i.e. this text. -/
def badSpec : String :=
  " boolean,\n            \"confidence\": float between 0 and 1,\n            \"reasoning\": \"detailed explanation\"\n        "

/-- The prompt f-string (source lines 25-42), compiled the way Python
compiles an f-string: an alternation of literal chunks and
`format(value, spec)` calls, evaluated left to right. The three `json.dumps`
fields carry an empty spec; the unescaped brace block contributes
`format("verified", badSpec)`. -/
def promptParts (user_data : PyDict) : List (Except PyErr String) :=
  [ Except.ok "\n        Analyze this referral for potential fraud or spam:\n        User Activity: "
  , pyFormatStr (jsonDumps 0 (dictGet user_data "activity" (PyVal.dict []))) ""
  , Except.ok "\n        Time Patterns: "
  , pyFormatStr (jsonDumps 0 (dictGet user_data "timing" (PyVal.dict []))) ""
  , Except.ok "\n        Interaction Data: "
  , pyFormatStr (jsonDumps 0 (dictGet user_data "interactions" (PyVal.dict []))) ""
  , Except.ok "\n\n        Determine if this is a legitimate referral by analyzing:\n        1. Activity patterns suggesting real user engagement\n        2. Natural timing distribution of actions\n        3. Interaction patterns between referrer and referred user\n\n        Respond with a JSON object containing:\n        "
  , pyFormatStr "verified" badSpec
  , Except.ok "\n        " ]

/-- Concatenate f-string parts left to right, propagating the first error. -/
def concatParts : List (Except PyErr String) → Except PyErr String
  | [] => Except.ok ""
  | p :: rest =>
    match p with
    | Except.error e => Except.error e
    | Except.ok s =>
      match concatParts rest with
      | Except.error e => Except.error e
      | Except.ok t => Except.ok (s ++ t)

/-- Evaluate the prompt f-string of `verify_referral`. -/
def buildPrompt (user_data : PyDict) : Except PyErr String :=
  concatParts (promptParts user_data)

/-- Python type name of a value, for the `TypeError` raised when item
assignment hits a non-dict (`int` and `float` are both `num` here). -/
def pyTypeName : PyVal → String
  | PyVal.null => "NoneType"
  | PyVal.bool _ => "bool"
  | PyVal.num _ => "float"
  | PyVal.str _ => "str"
  | PyVal.list _ => "list"
  | PyVal.dict _ => "dict"

/-- The body of the `try` block of `verify_referral` (source lines 24-62):
build the prompt, issue the single `openai.chat.completions.create` call
(whose outcome is the oracle `net`), parse the response content as JSON, and
attach `timestamp` and `model_version`. Returns the outcome together with
the number of outbound requests issued. -/
def tryBody (user_data : PyDict) (net : Except PyErr String) (now : Nat) :
    Except PyErr PyDict × Nat :=
  match buildPrompt user_data with
  | Except.error e => (Except.error e, 0)
  | Except.ok _prompt =>
    match net with
    | Except.error e => (Except.error e, 1)
    | Except.ok content =>
      match jsonLoads content with
      | Except.error e => (Except.error e, 1)
      | Except.ok v =>
        match v with
        | PyVal.dict entries =>
          let r1 := dictSet entries "timestamp" (PyVal.str (toString now))
          let r2 := dictSet r1 "model_version" (PyVal.str "gpt-4o")
          (Except.ok r2, 1)
        | other =>
          (Except.error (PyErr.mk "TypeError"
            (pyTypeName other ++ " object does not support item assignment")), 1)

/-- Outcome of one call of `verify_referral`: the returned dict or raised
exception, the number of outbound requests performed, and the state of the
`user_data` dictionary when the call ends (the source only ever reads it,
through `.get`). -/
structure CallResult where
  result : Except PyErr PyDict
  requests : Nat
  user_data_after : PyDict

/-- `verify_referral(user_data)`: run the `try` body; any exception it
raises is caught by the blanket `except Exception` handler and re-raised as
`Exception("Failed to verify referral: " + str(e))` (source lines 64-65).
`net` is the oracle for the outcome of the one `create` call, `now` for
`int(time.time())`. -/
def verifyReferral (user_data : PyDict) (net : Except PyErr String) (now : Nat) :
    CallResult :=
  match tryBody user_data net now with
  | (Except.ok r, n) => ⟨Except.ok r, n, user_data⟩
  | (Except.error e, n) =>
    ⟨Except.error (PyErr.mk "Exception" ("Failed to verify referral: " ++ e.msg)), n, user_data⟩

/- ## Shared facts -/

/-- Central computation: for every input mapping, oracle outcome and clock
value, `verify_referral` stops inside prompt construction — the unescaped
brace block of the f-string is parsed as a replacement field whose format
specifier is invalid for a string — and the blanket handler re-wraps that
error, so the call raises, performs no outbound request, and leaves
`user_data` untouched. -/
theorem verifyReferral_run (ud : PyDict) (net : Except PyErr String) (now : Nat) :
    verifyReferral ud net now =
      ⟨Except.error (PyErr.mk "Exception" "Failed to verify referral: Invalid format specifier"),
        0, ud⟩ := rfl

/- ## Claims -/

/-- Claim C1: for every input mapping `user_data`, `verify_referral` raises an
Exception whose message starts with "Failed to verify referral: " and never
returns a result: the unescaped literal brace block of the prompt f-string is
parsed as a replacement field whose format specifier is invalid for a string,
so prompt construction raises before any network call and the blanket
`except` re-wraps the error. -/
theorem prompt_always_fails_and_raises_wrapped (ud : PyDict)
    (net : Except PyErr String) (now : Nat) :
    buildPrompt ud = Except.error (PyErr.mk "ValueError" "Invalid format specifier") ∧
    (verifyReferral ud net now).result =
      Except.error (PyErr.mk "Exception" "Failed to verify referral: Invalid format specifier") ∧
    List.isPrefixOf "Failed to verify referral: ".data
      (errMsgOf (verifyReferral ud net now).result).data = true ∧
    exceptIsOk (verifyReferral ud net now).result = false ∧
    (verifyReferral ud net now).requests = 0 :=
  ⟨rfl, rfl, rfl, rfl, rfl⟩

/-- Claim C2 (refuted, code bug): with the remote response body stubbed to
exactly the JSON text of the claim, `verify_referral` does not return that
data augmented with `timestamp` and `model_version` — it raises during prompt
construction, before the response could even be requested or parsed. -/
theorem stubbed_response_never_returned :
    (verifyReferral []
      (Except.ok "\x7b\"verified\": true, \"confidence\": 0.9, \"reasoning\": \"consistent timing\"\x7d")
      1700000000).result =
      Except.error (PyErr.mk "Exception" "Failed to verify referral: Invalid format specifier") := rfl

/-- Claim C3 (refuted, code bug): on an input record with all three
sub-mappings present, `verify_referral` does not return a five-key mapping —
it raises during prompt construction, so no mapping whatsoever is returned. -/
theorem full_record_gets_error_not_mapping :
    (verifyReferral
      [("activity", PyVal.dict [("logins", PyVal.num 5)]),
       ("timing", PyVal.dict [("gaps", PyVal.list [PyVal.num 1, PyVal.num 2])]),
       ("interactions", PyVal.dict [("messages", PyVal.num 3)])]
      (Except.ok "\x7b\"verified\": true, \"confidence\": 0.7, \"reasoning\": \"steady\"\x7d")
      42).result =
      Except.error (PyErr.mk "Exception" "Failed to verify referral: Invalid format specifier") := rfl

/-- Claim C4 (refuted, code bug): with all three optional sub-mappings
absent, `verify_referral` does raise before issuing the network call — the
`.get` defaults are substituted, but the f-string then fails on its invalid
format specifier, so zero requests are sent and no request is ever
proceeded to. -/
theorem empty_record_raises_before_request :
    (verifyReferral [] (Except.ok "\x7b\x7d") 7).requests = 0 ∧
    exceptIsOk (verifyReferral [] (Except.ok "\x7b\x7d") 7).result = false :=
  ⟨rfl, rfl⟩

/-- Claim C5: whenever the `try` body of `verify_referral` raises an
underlying error, the function raises exactly one generic error — class
`Exception`, message "Failed to verify referral: " followed by the original
cause description — and never returns a mapping. -/
theorem errors_wrapped_once (ud : PyDict) (net : Except PyErr String) (now : Nat)
    (e : PyErr) (h : (tryBody ud net now).1 = Except.error e) :
    (verifyReferral ud net now).result =
      Except.error (PyErr.mk "Exception" ("Failed to verify referral: " ++ e.msg)) ∧
    exceptIsOk (verifyReferral ud net now).result = false := by
  have h2 : (tryBody ud net now).1 =
      Except.error (PyErr.mk "ValueError" "Invalid format specifier") := rfl
  rw [h2] at h
  injection h with h3
  subst h3
  exact ⟨rfl, rfl⟩

/-- Witness for claim C5: a concrete call whose try body raises, with the
wrapped error surfaced. -/
theorem errors_wrapped_once_witness :
    (verifyReferral [] (Except.ok "pong") 11).result =
      Except.error (PyErr.mk "Exception"
        ("Failed to verify referral: " ++ (PyErr.mk "ValueError" "Invalid format specifier").msg)) ∧
    exceptIsOk (verifyReferral [] (Except.ok "pong") 11).result = false :=
  errors_wrapped_once [] (Except.ok "pong") 11
    (PyErr.mk "ValueError" "Invalid format specifier") rfl

/-- Claim C6: when the remote response body is not valid JSON,
`verify_referral` raises an error and never returns a mapping with missing or
partially populated fields — indeed it raises even earlier than the parse,
during prompt construction. -/
theorem invalid_json_never_yields_mapping (ud : PyDict) (now : Nat) (s : String)
    (e : PyErr) (h : jsonLoads s = Except.error e) :
    (verifyReferral ud (Except.ok s) now).result =
      Except.error (PyErr.mk "Exception" "Failed to verify referral: Invalid format specifier") ∧
    exceptIsOk (verifyReferral ud (Except.ok s) now).result = false :=
  ⟨rfl, rfl⟩

/-- Witness for claim C6: a concrete response body that is not valid JSON. -/
theorem invalid_json_never_yields_mapping_witness :
    (verifyReferral [] (Except.ok "not json") 3).result =
      Except.error (PyErr.mk "Exception" "Failed to verify referral: Invalid format specifier") ∧
    exceptIsOk (verifyReferral [] (Except.ok "not json") 3).result = false :=
  invalid_json_never_yields_mapping [] 3 "not json"
    (PyErr.mk "JSONDecodeError" "Expecting value") rfl

/-- Claim C7 (refuted, code bug): the guarantee about `timestamp` and
`model_version` speaks of successful returns, but `verify_referral` has no
successful return at all — every call raises during prompt construction, so
the augmentation at source lines 58-60 is dead code. -/
theorem no_successful_return_ever (ud : PyDict) (net : Except PyErr String) (now : Nat) :
    exceptIsOk (verifyReferral ud net now).result = false := rfl

/-- Claim C8: `verify_referral` never mutates its input: the source reads
`user_data` only through `.get` (and `json.dumps`), so the dictionary state
at the end of the call equals the input, whether the call returns or
raises. -/
theorem user_data_never_mutated (ud : PyDict) (net : Except PyErr String) (now : Nat) :
    (verifyReferral ud net now).user_data_after = ud := rfl

/-- Claim C9 (refuted, code bug): each invocation performs zero outbound
network requests, not exactly one — prompt construction raises before the
single `create` call is reached. -/
theorem requests_always_zero (ud : PyDict) (net : Except PyErr String) (now : Nat) :
    (verifyReferral ud net now).requests = 0 := rfl

/-- Claim C10 (refuted, code bug): the claimed silent overwrite of
model-supplied `timestamp` and `model_version` keys never happens, because
the parse-and-augment path is unreachable: even with a response carrying
those keys, the call raises during prompt construction. -/
theorem metadata_overwrite_unreachable :
    (verifyReferral []
      (Except.ok "\x7b\"verified\": true, \"timestamp\": \"1\", \"model_version\": \"other\"\x7d")
      77).result =
      Except.error (PyErr.mk "Exception" "Failed to verify referral: Invalid format specifier") := rfl

end ReferralVerification
